import Mathlib

/-!
Shallow embedding of `thunder/core/prims.py`: the primitive registry,
meta-function evaluation and symbolic trace recording of a tracing
compiler for tensor programs, together with the shape/dtype inference
(meta) functions for the primitives reasoned about below.

External collaborators of that file (the proxy data model in
`proxies.py`, the trace container in `trace.py`, and the dtype/shape
utilities in `utils.py` and the `dtypes` submodule) are not part of the
source tree; they are modelled from the specification and marked as
such in their doc comments.

Python exceptions are modelled by the `Err` sum; each raised error is
classified by the specification's error taxonomy (type error, shape
error, bounds error, unsupported feature).  A meta function has type
`... → RState → Except Err PValue × RState`: mutations performed before
an error persist in the returned state, exactly as Python mutations
performed before an exception persist.

Python float arithmetic is not interpreted: float payloads are carried
as placeholder integers, and no theorem below depends on the value of a
floating-point computation.
-/

namespace ThunderPrims

/-- Tensor element types (the `dtypes` submodule, external collaborator). -/
inductive Dtype where
  | bool8 | uint8 | int8 | int16 | int32 | int64
  | bfloat16 | float16 | float32 | float64
  | complex64 | complex128
  deriving DecidableEq, Repr

/-- Logical Python number types (`bool` / `int` / `float` / `complex`). -/
inductive NumberType where
  | tBool | tInt | tFloat | tComplex
  deriving DecidableEq, Repr

/-- A value flowing through type promotion: either a tensor dtype or a
Python number type. -/
inductive TypeTag where
  | dt (d : Dtype)
  | nt (n : NumberType)
  deriving DecidableEq, Repr

/-- Modelled from the spec (`utils`/`dtypes` external): classification
predicate for complex element types. -/
def is_complex_typ : TypeTag → Bool
  | .dt .complex64 => true
  | .dt .complex128 => true
  | .nt .tComplex => true
  | _ => false

/-- Modelled from the spec (`utils` external): the real type
corresponding to a complex one. -/
def corresponding_real_typ : TypeTag → TypeTag
  | .dt .complex64 => .dt .float32
  | .dt .complex128 => .dt .float64
  | .nt .tComplex => .nt .tFloat
  | t => t

/-- Modelled from the spec (proxy model external): the Python number
type corresponding to a tensor dtype. -/
def ntypeOfDtype : Dtype → NumberType
  | .bool8 => .tBool
  | .uint8 => .tInt
  | .int8 => .tInt
  | .int16 => .tInt
  | .int32 => .tInt
  | .int64 => .tInt
  | .bfloat16 => .tFloat
  | .float16 => .tFloat
  | .float32 => .tFloat
  | .float64 => .tFloat
  | .complex64 => .tComplex
  | .complex128 => .tComplex

/-- Modelled from the spec (proxy model external): a tensor proxy
constructed with a Python number type as its dtype stores the
corresponding default tensor dtype (`bool` becomes `bool8`, `int`
becomes `int64`, `float` becomes `float64`, `complex` becomes
`complex128`). -/
def dtypeFromTag : TypeTag → Dtype
  | .dt d => d
  | .nt .tBool => .bool8
  | .nt .tInt => .int64
  | .nt .tFloat => .float64
  | .nt .tComplex => .complex128

/-- Concrete placeholder values carried by number proxies for constant
folding.  Float and complex payloads are placeholder integers: real
floating-point arithmetic is out of scope at this layer, and no theorem
below depends on a float payload. -/
inductive NumVal where
  | vBool (b : Bool)
  | vInt (i : Int)
  | vFloat (x : Int)
  | vComplex (re im : Int)
  deriving DecidableEq, Repr

/-- Python type of a number value. -/
def ntypeOf : NumVal → NumberType
  | .vBool _ => .tBool
  | .vInt _ => .tInt
  | .vFloat _ => .tFloat
  | .vComplex _ _ => .tComplex

/-- Python truthiness `bool(v)` of a number value (placeholder semantics
on the float/complex payloads). -/
def truthy : NumVal → Bool
  | .vBool b => b
  | .vInt i => i != 0
  | .vFloat x => x != 0
  | .vComplex re im => re != 0 || im != 0

/-- Representative integer payload of a number value, used by the
placeholder number handlers. -/
def numOrd : NumVal → Int
  | .vBool b => if b then 1 else 0
  | .vInt i => i
  | .vFloat x => x
  | .vComplex re _ => re

/-- Python cast `t(v)` of a number value to a number type.  The boolean
row is Python truthiness; the remaining rows use the representative
payload (placeholder semantics, not used by any theorem). -/
def castNum : NumberType → NumVal → NumVal
  | .tBool, v => .vBool (truthy v)
  | .tInt, v => .vInt (numOrd v)
  | .tFloat, v => .vFloat (numOrd v)
  | .tComplex, v => .vComplex (numOrd v) 0

/-- Cast by a promotion result tag.  Number paths of the meta functions
only ever see number-type tags; a dtype tag casts via its corresponding
number type. -/
def castTag : TypeTag → NumVal → NumVal
  | .nt n, v => castNum n v
  | .dt d, v => castNum (ntypeOfDtype d) v

/-- Modelled from the spec (`proxies.py` external): a tensor proxy
carries shape, device and dtype and never carries data.  The weak/strong
dtype distinction is not observable at this layer, so `true_dtype`
coincides with `dtype`. -/
structure TensorProxy where
  name : String
  shape : List Nat
  device : String
  dtype : Dtype
  deriving DecidableEq, Repr

/-- Rank of a tensor proxy. -/
def TensorProxy.ndim (t : TensorProxy) : Nat := t.shape.length

/-- Derived element count: the product of the shape. -/
def TensorProxy.numel (t : TensorProxy) : Nat := t.shape.foldl (· * ·) 1

/-- Derived true dtype (see the structure's doc comment). -/
def TensorProxy.true_dtype (t : TensorProxy) : Dtype := t.dtype

/-- Modelled from the spec (`proxies.py` external):
`TensorProxy(name=n, tensor=a, dtype=d)` copies shape and device from
`a` and takes the given dtype, which may be a Python number type
(normalized to a tensor dtype). -/
def TensorProxy.withDtype (name : String) (a : TensorProxy) (d : TypeTag) : TensorProxy :=
  { name := name, shape := a.shape, device := a.device, dtype := dtypeFromTag d }

/-- Modelled from the spec (`proxies.py` external):
`TensorProxy(tensor=a, name=n, shape=s)` copies device and dtype from
`a` and takes the given shape. -/
def TensorProxy.withShape (name : String) (a : TensorProxy) (shape : List Nat) : TensorProxy :=
  { name := name, shape := shape, device := a.device, dtype := a.dtype }

/-- Modelled from the spec (`proxies.py` external): a number proxy
carries a placeholder value.  Plain Python numbers are represented as
unnamed number proxies; both satisfy `isinstance(x, Number)`. -/
structure NumberProxy where
  name : Option String
  value : NumVal
  deriving DecidableEq, Repr

/-- A Python value that can appear as an argument or output of a
primitive call: a proxy, a plain number, a list, a tuple, or `None`. -/
inductive PValue where
  | tensor (t : TensorProxy)
  | num (n : NumberProxy)
  | list (xs : List PValue)
  | tup (xs : List PValue)
  | nil

/-- The `Ops` enumeration of `prims.py`: one tag per primitive. -/
inductive Ops where
  | CONVERT_ELEMENT_TYPE
  | FULL | IOTA | UNIFORM
  | BROADCAST_IN_DIM | RESHAPE | SLICE | SQUEEZE | TRANSPOSE | VIEW
  | ABS | ACOS | ACOSH | ASIN | ATAN | ATANH | BITWISE_NOT | CEIL
  | COS | COSH | ERF | ERFC | EXP | EXPM1 | FLOOR | ISFINITE | RSQRT
  | SIN | TANH | LOG | LOG10 | LOG1P | LOG2
  | ADD | ATAN2 | BITWISE_AND | DIV | EQ | LT | MUL | POW | SUB
  | WHERE
  | AMAX | SUM | VAR
  | LINEAR | MATMUL
  | EMBEDDING
  deriving DecidableEq, Repr

/-- Raised Python errors, classified by the specification's taxonomy.
`utils.check` failures are tagged by the meaning of the failed check
(shape checks raise `shapeError`, slice index checks raise
`boundsError`, operand-kind and dtype checks raise `typeError`), and
`raise NotImplemented` is `notImplemented` (the unsupported-feature
abort). -/
inductive Err where
  | typeError
  | shapeError
  | boundsError
  | notImplemented
  deriving DecidableEq, Repr

/-- A recorded Symbol: the immutable record of one primitive invocation.
The field `uid` models Python object identity: every constructed Symbol
receives a fresh uid from the allocation counter, realizing the spec's
arena-index reading of identity.  Equality and hashing are by identity
only. -/
structure Symbol where
  uid : Nat
  op : Ops
  name : String
  outputs : List PValue
  args : List PValue
  kwargs : List (String × PValue)

/-- Symbol `__eq__`: `self is other`, identity only. -/
def Symbol.eq (self other : Symbol) : Bool := self.uid == other.uid

/-- Symbol `__hash__`: `id(self)`. -/
def Symbol.hashId (self : Symbol) : Nat := self.uid

/-- Modelled from the spec (`trace.py` external): the active trace holds
the ordered Symbol sequence of the recorded program and a monotonic
name counter for minting trace-unique proxy names. -/
structure Trace where
  nameCtr : Nat
  symbols : List Symbol

/-- The mutable runtime state of one recording context: the active trace
plus the allocation counter minting object identities for Symbols. -/
structure RState where
  trace : Trace
  heapCtr : Nat

/-- The name minted by the next `make_proxy_name` call. -/
def freshName (s : RState) : String := "__" ++ Nat.repr s.trace.nameCtr

/-- Advance the trace's name counter. -/
def bumpName (s : RState) : RState := { s with trace.nameCtr := s.trace.nameCtr + 1 }

/-- Modelled from the spec (`trace.py` external):
`get_trace().make_proxy_name()` returns a fresh trace-unique identifier
by reading and advancing the trace's monotonic name counter. -/
def make_proxy_name (s : RState) : String × RState := (freshName s, bumpName s)

/-- Modelled from the spec (`trace.py` external):
`get_trace().add_symbol(sym)` appends a Symbol to the trace's program;
it never fails for a well-formed Symbol. -/
def add_symbol (sym : Symbol) (s : RState) : RState :=
  { s with trace.symbols := s.trace.symbols ++ [sym] }

/-- The per-argument normalization performed by `make_symbol`:
`tuple(a) if isinstance(a, Sequence) else a`. -/
def normalizeArg : PValue → PValue
  | .list xs => .tup xs
  | .tup xs => .tup xs
  | v => v

/-- The output normalization performed by `make_symbol`:
`tuple(outputs) if isinstance(outputs, Sequence) else (outputs,)`. -/
def normalizeOutputs : PValue → List PValue
  | .list xs => xs
  | .tup xs => xs
  | v => [v]

/-- `make_symbol`: normalizes the outputs and args to tuples and
constructs the Symbol, allocating a fresh object identity. -/
def make_symbol (id : Ops) (name : String) (outputs : PValue)
    (args : List PValue) (kwargs : List (String × PValue)) (s : RState) :
    Symbol × RState :=
  let symbol_outputs := normalizeOutputs outputs
  let symbol_args := args.map normalizeArg
  let symbol : Symbol :=
    { uid := s.heapCtr, op := id, name := name,
      outputs := symbol_outputs, args := symbol_args, kwargs := kwargs }
  (symbol, { s with heapCtr := s.heapCtr + 1 })

/-- The calling convention of a meta function as invoked by the
recording wrapper: positional arguments, keyword arguments and state in;
a result or a raised error, plus the (possibly mutated) state out. -/
abbrev MetaFn := List PValue → List (String × PValue) → RState → Except Err PValue × RState

/-- `eval_meta_and_record_symbol_fn`: the recording wrapper.  It invokes
the meta function; on success it builds a Symbol from the result and the
call's arguments, appends it to the active trace, and returns the meta
function's result unchanged.  A meta-function error propagates without
any Symbol being built or appended. -/
def eval_meta_and_record_symbol_fn (meta : MetaFn) (id : Ops) (name : String) : MetaFn :=
  fun args kwargs s =>
    match meta args kwargs s with
    | (.error e, s1) => (.error e, s1)
    | (.ok result, s1) =>
      match make_symbol id name result args kwargs s1 with
      | (sym, s2) => (.ok result, add_symbol sym s2)

/-- `make_prim` binds a primitive id and pretty name to its meta
function and returns the recording wrapper.  (The two module-level
registry dictionaries it also fills are not needed by the theorems
below.) -/
def make_prim (id : Ops) (name : String) (meta : MetaFn) : MetaFn :=
  eval_meta_and_record_symbol_fn meta id name

/-- The elementwise primitive promotion-kind enumeration. -/
inductive ELEMENTWISE_PRIM_TYPE_PROMOTION_KIND where
  | DEFAULT | ALWAYS_BOOL | COMPLEX_TO_FLOAT
  deriving DecidableEq, Repr

/-- `_prim_type_promotion`.  The Python function raises an assertion
error on an unrecognized kind; the kind enumeration is closed, so that
branch is unreachable and the Lean function is total. -/
def _prim_type_promotion (typ : TypeTag)
    (type_promotion_kind : ELEMENTWISE_PRIM_TYPE_PROMOTION_KIND) : TypeTag :=
  match type_promotion_kind with
  | .DEFAULT => typ
  | .ALWAYS_BOOL => .nt .tBool
  | .COMPLEX_TO_FLOAT =>
    if is_complex_typ typ then corresponding_real_typ typ else typ

/-- Modelled from the spec (`utils` external):
`utils.to_dtype(a, true_dtype=True)` resolves the element type of a
tensor or number input; any other input kind is a type error. -/
def to_dtype : PValue → Except Err TypeTag
  | .tensor t => .ok (.dt t.true_dtype)
  | .num n => .ok (.nt (ntypeOf n.value))
  | _ => .error Err.typeError

/-- Modelled from the spec (`utils` external): the same-dtype resolver
`utils.check_same_dtype(a, b)` returns a shared number type and/or a
shared tensor dtype; operands that do not share one logical element
type are rejected (mixed dtypes are not promoted). -/
def check_same_dtype (a b : PValue) : Except Err (Option NumberType × Option Dtype) :=
  match a, b with
  | .tensor ta, .tensor tb =>
    if ta.dtype = tb.dtype then .ok (none, some ta.dtype) else .error Err.typeError
  | .num na, .num nb =>
    if ntypeOf na.value = ntypeOf nb.value then .ok (some (ntypeOf na.value), none)
    else .error Err.typeError
  | .tensor ta, .num nb =>
    if ntypeOfDtype ta.dtype = ntypeOf nb.value then .ok (some (ntypeOf nb.value), some ta.dtype)
    else .error Err.typeError
  | .num na, .tensor tb =>
    if ntypeOfDtype tb.dtype = ntypeOf na.value then .ok (some (ntypeOf na.value), some tb.dtype)
    else .error Err.typeError
  | _, _ => .error Err.typeError

/-- Modelled from the spec (`utils` external): `same_shape` is exact
shape equality (no implicit broadcasting at this layer). -/
def same_shape (s1 s2 : List Nat) : Bool := s1 == s2

/-- Tensor-or-Number operand test (`isinstance(x, (TensorProxy, Number))`). -/
def isTensorOrNumber : PValue → Bool
  | .tensor _ => true
  | .num _ => true
  | _ => false

/-- `_elementwise_unary_meta`.  Note the source order: the element type
is resolved and promoted and a proxy name is minted before the
tensor/number dispatch and its checks. -/
def _elementwise_unary_meta (name : String)
    (type_promotion_kind : ELEMENTWISE_PRIM_TYPE_PROMOTION_KIND)
    (number_handler : Option (NumVal → NumVal))
    (a : PValue) (s : RState) : Except Err PValue × RState :=
  match to_dtype a with
  | .error e => (.error e, s)
  | .ok input_dtype =>
    let result_dtype := _prim_type_promotion input_dtype type_promotion_kind
    let pn := make_proxy_name s
    let proxy_name := pn.1
    let s1 := pn.2
    match a with
    | .tensor t =>
      (.ok (.tensor (TensorProxy.withDtype proxy_name t result_dtype)), s1)
    | .num n =>
      match number_handler with
      | none => (.error Err.typeError, s1)
      | some handler =>
        let va := n.value
        let result := castTag result_dtype (handler va)
        (.ok (.num { name := some proxy_name, value := result }), s1)
    | _ => (.error Err.typeError, s1)

/-- `_elementwise_binary_meta`.  Note the source order: operand-kind
checks and the same-dtype resolution come first, then a proxy name is
minted, and only then is the tensor-by-tensor shape check performed, so
a shape failure leaves the name counter advanced. -/
def _elementwise_binary_meta (name : String)
    (type_promotion_kind : ELEMENTWISE_PRIM_TYPE_PROMOTION_KIND)
    (number_handler : Option (NumVal → NumVal → NumVal))
    (a b : PValue) (s : RState) : Except Err PValue × RState :=
  if ¬ isTensorOrNumber a then (.error Err.typeError, s)
  else if ¬ isTensorOrNumber b then (.error Err.typeError, s)
  else
    match check_same_dtype a b with
    | .error e => (.error e, s)
    | .ok (numbertype, dtype) =>
      let input_type : TypeTag :=
        match dtype, numbertype with
        | some d, _ => .dt d
        | none, some n => .nt n
        | none, none => .nt .tBool
      let result_type := _prim_type_promotion input_type type_promotion_kind
      let pn := make_proxy_name s
      let proxy_name := pn.1
      let s1 := pn.2
      match a, b with
      | .tensor ta, .tensor tb =>
        if same_shape ta.shape tb.shape then
          (.ok (.tensor (TensorProxy.withDtype proxy_name ta result_type)), s1)
        else (.error Err.shapeError, s1)
      | .num na, .num nb =>
        match number_handler with
        | none => (.error Err.typeError, s1)
        | some handler =>
          let value := handler na.value nb.value
          let result := castTag result_type value
          (.ok (.num { name := some proxy_name, value := result }), s1)
      | .tensor ta, _ =>
        (.ok (.tensor (TensorProxy.withDtype proxy_name ta result_type)), s1)
      | _, .tensor tb =>
        (.ok (.tensor (TensorProxy.withDtype proxy_name tb result_type)), s1)
      | _, _ => (.error Err.typeError, s1)

/-- `reshape_meta`: validates that the input is a tensor proxy and that
the shape's element count matches the tensor's.  The shape-validity
check `utils.check_valid_shape` requires the entries to be non-negative
integers, which holds by construction for a `List Nat`. -/
def reshape_meta (a : PValue) (shape : List Nat) (s : RState) : Except Err PValue × RState :=
  match a with
  | .tensor t =>
    let numel := shape.foldl (· * ·) 1
    if numel = t.numel then
      let pn := make_proxy_name s
      let proxy_name := pn.1
      let s1 := pn.2
      (.ok (.tensor (TensorProxy.withShape proxy_name t shape)), s1)
    else (.error Err.shapeError, s)
  | _ => (.error Err.typeError, s)

/-- The per-dimension slice validation and output-length computation of
`slice_meta`, over the zip of (start, stop, dimension length, stride).
Each dimension checks, in source order, that the start is weakly
positive, weakly below the dimension length, weakly below the stop,
that the stop is weakly below the dimension length, and that the stride
is strictly positive; the new dimension length is
`floor((stop - start) / stride)` (exact integer floor; both operands
are non-negative here, so `Int` division is that floor). -/
def sliceDims : List (Int × Int × Nat × Int) → Except Err (List Nat)
  | [] => .ok []
  | (start, stop, len, stride) :: rest =>
    if 0 ≤ start ∧ start ≤ (len : Int) ∧ start ≤ stop ∧ stop ≤ (len : Int) ∧ 1 ≤ stride then
      match sliceDims rest with
      | .error e => .error e
      | .ok tail => .ok (((stop - start) / stride).toNat :: tail)
    else .error Err.boundsError

/-- The zip of start indices, end indices, dimension lengths and strides
iterated by `slice_meta`. -/
def zip4 (starts stops : List Int) (shape : List Nat) (strides : List Int) :
    List (Int × Int × Nat × Int) :=
  starts.zip (stops.zip (shape.zip strides))

/-- `slice_meta`: strides default to 1 per dimension; all three index
sequences must have length equal to the tensor's rank, and every
dimension must pass the bounds checks of `sliceDims`. -/
def slice_meta (a : PValue) (start_indices end_indices : List Int)
    (strides : Option (List Int)) (s : RState) : Except Err PValue × RState :=
  match a with
  | .tensor t =>
    let strides := match strides with
      | none => List.replicate t.ndim 1
      | some st => st
    if t.ndim = start_indices.length ∧ start_indices.length = end_indices.length ∧
        end_indices.length = strides.length then
      match sliceDims (zip4 start_indices end_indices t.shape strides) with
      | .error e => (.error e, s)
      | .ok new_shape =>
        let pn := make_proxy_name s
        let proxy_name := pn.1
        let s1 := pn.2
        (.ok (.tensor (TensorProxy.withShape proxy_name t new_shape)), s1)
    else (.error Err.boundsError, s)
  | _ => (.error Err.typeError, s)

/-- Modelled from the spec (`utils` external):
`utils.check_valid_permutation(rank, p)` requires `p` to be a valid
permutation of `0..rank-1`, covering each index exactly once, i.e. a
rearrangement of `List.range rank`. -/
def check_valid_permutation (rank : Nat) (permutation : List Nat) : Bool :=
  decide (permutation.Perm (List.range rank))

/-- The output shape of `transpose_meta`: the source loop writes
`new_shape[idx] = a.shape[permutation[idx]]` for every position of the
permutation, which (the permutation having the tensor's rank as its
length) is exactly this map. -/
def permShape (permutation : List Nat) (shape : List Nat) : List Nat :=
  permutation.map (fun dim => shape.getD dim 0)

/-- `transpose_meta`: the permutation must have length equal to the
tensor's rank and be a valid permutation; the result shape is the
tensor's shape reordered by the permutation. -/
def transpose_meta (a : PValue) (permutation : List Nat) (s : RState) :
    Except Err PValue × RState :=
  match a with
  | .tensor t =>
    if t.ndim = permutation.length then
      if check_valid_permutation t.ndim permutation then
        let new_shape := permShape permutation t.shape
        let pn := make_proxy_name s
        let proxy_name := pn.1
        let s1 := pn.2
        (.ok (.tensor (TensorProxy.withShape proxy_name t new_shape)), s1)
      else (.error Err.shapeError, s)
    else (.error Err.shapeError, s)
  | _ => (.error Err.typeError, s)

/-- `matmul_meta`: both operands must be tensor proxies; on a rank
below 2 the source executes `raise NotImplemented` (the
unsupported-feature abort); then same device, same dtype, equal batch
dimensions, and contractible inner dimensions are checked. -/
def matmul_meta (a b : PValue) (s : RState) : Except Err PValue × RState :=
  match a, b with
  | .tensor ta, .tensor tb =>
    if ta.ndim < 2 ∨ tb.ndim < 2 then (.error Err.notImplemented, s)
    else if ¬ ta.device = tb.device then (.error Err.typeError, s)
    else if ¬ ta.dtype = tb.dtype then (.error Err.typeError, s)
    else if ¬ same_shape (ta.shape.take (ta.shape.length - 2)) (tb.shape.take (tb.shape.length - 2)) then
      (.error Err.shapeError, s)
    else if ¬ ta.shape.getD (ta.shape.length - 1) 0 = tb.shape.getD (tb.shape.length - 2) 0 then
      (.error Err.shapeError, s)
    else
      let shape := ta.shape.take (ta.shape.length - 2) ++
        [ta.shape.getD (ta.shape.length - 2) 0, tb.shape.getD (tb.shape.length - 1) 0]
      let pn := make_proxy_name s
      let proxy_name := pn.1
      let s1 := pn.2
      (.ok (.tensor { name := proxy_name, shape := shape,
                      device := ta.device, dtype := ta.dtype }), s1)
  | _, _ => (.error Err.typeError, s)

/-- `embedding_meta`: a provided `max_norm` executes
`raise NotImplemented` (the unsupported-feature abort) before any other
check; then the index tensor must have dtype int64 and the weight must
be a rank-2 tensor, and the result takes the weight's device and dtype
with the weight's second dimension appended to the index shape.
`padding_idx` is accepted and unused at this layer. -/
def embedding_meta (a weight : PValue) (padding_idx : PValue)
    (max_norm : Option PValue) (s : RState) : Except Err PValue × RState :=
  match max_norm with
  | some _ => (.error Err.notImplemented, s)
  | none =>
    match a, weight with
    | .tensor ta, .tensor tw =>
      if ¬ ta.dtype = Dtype.int64 then (.error Err.typeError, s)
      else if ¬ tw.ndim = 2 then (.error Err.shapeError, s)
      else
        let shape := ta.shape ++ [tw.shape.getD 1 0]
        let pn := make_proxy_name s
        let proxy_name := pn.1
        let s1 := pn.2
        (.ok (.tensor { name := proxy_name, shape := shape,
                        device := tw.device, dtype := tw.dtype }), s1)
    | _, _ => (.error Err.typeError, s)

/-- Number handler of `add` (`operator.add`); representative placeholder
semantics off the int/bool path, unused by the theorems. -/
def add_number_handler : NumVal → NumVal → NumVal
  | .vInt x, .vInt y => .vInt (x + y)
  | .vBool x, .vBool y => .vInt ((if x then 1 else 0) + (if y then 1 else 0))
  | .vFloat x, .vFloat y => .vFloat (x + y)
  | .vComplex xr xi, .vComplex yr yi => .vComplex (xr + yr) (xi + yi)
  | a, b => .vFloat (numOrd a + numOrd b)

/-- Number handler of `eq` (`operator.eq`); structural comparison of the
placeholder values. -/
def eq_number_handler (a b : NumVal) : NumVal := .vBool (decide (a = b))

/-- Number handler of `lt` (`operator.lt`); comparison of the
representative payloads (placeholder semantics, unused by theorems). -/
def lt_number_handler (a b : NumVal) : NumVal := .vBool (decide (numOrd a < numOrd b))

/-- Number handler of `isfinite` (`math.isfinite`); every placeholder
number value is finite. -/
def isfinite_number_handler (_ : NumVal) : NumVal := .vBool true

/-- Modelled from the spec: `math.sqrt` on the uninterpreted float
payloads (its value is never used by a theorem). -/
def math_sqrt (x : NumVal) : NumVal := .vFloat (numOrd x)

/-- Python true division, which yields a float. -/
def numTrueDiv (a b : NumVal) : NumVal := .vFloat (numOrd a / numOrd b)

/-- `_rsqrt_number(x) = 1 / math.sqrt(x)`. -/
def _rsqrt_number (x : NumVal) : NumVal := numTrueDiv (.vInt 1) (math_sqrt x)

/-- The meta function of the `add` primitive. -/
def add_meta : PValue → PValue → RState → Except Err PValue × RState :=
  _elementwise_binary_meta "add" .DEFAULT (some add_number_handler)

/-- The meta function of the `eq` primitive (ALWAYS_BOOL promotion). -/
def eq_meta : PValue → PValue → RState → Except Err PValue × RState :=
  _elementwise_binary_meta "eq" .ALWAYS_BOOL (some eq_number_handler)

/-- The meta function of the `lt` primitive (ALWAYS_BOOL promotion). -/
def lt_meta : PValue → PValue → RState → Except Err PValue × RState :=
  _elementwise_binary_meta "lt" .ALWAYS_BOOL (some lt_number_handler)

/-- The meta function of the `isfinite` primitive (ALWAYS_BOOL promotion). -/
def isfinite_meta : PValue → RState → Except Err PValue × RState :=
  _elementwise_unary_meta "isfinite" .ALWAYS_BOOL (some isfinite_number_handler)

/-- The meta function of the `rsqrt` primitive: registered with the
ALWAYS_BOOL promotion kind in the source. -/
def rsqrt_meta : PValue → RState → Except Err PValue × RState :=
  _elementwise_unary_meta "rsqrt" .ALWAYS_BOOL (some _rsqrt_number)

/-- Uncurrying of `add_meta` to the wrapper calling convention: `add`
takes exactly two positional operands. -/
def add_pmeta : MetaFn := fun args _kwargs s =>
  match args with
  | [a, b] => add_meta a b s
  | _ => (.error Err.typeError, s)

/-- The recorded `add` primitive: `make_prim(Ops.ADD, "add", ...)`. -/
def add_prim : MetaFn := make_prim Ops.ADD "add" add_pmeta

/-- Uncurrying of `matmul_meta` to the wrapper calling convention. -/
def matmul_pmeta : MetaFn := fun args _kwargs s =>
  match args with
  | [a, b] => matmul_meta a b s
  | _ => (.error Err.typeError, s)

/-- The recorded `matmul` primitive. -/
def matmul_prim : MetaFn := make_prim Ops.MATMUL "matmul" matmul_pmeta

/-- Uncurrying of `embedding_meta` to the wrapper calling convention;
`padding_idx` defaults to -1 and `max_norm` to `None` (a positional
`None` is `None`). -/
def embedding_pmeta : MetaFn := fun args _kwargs s =>
  match args with
  | [a, w] => embedding_meta a w (.num { name := none, value := .vInt (-1) }) none s
  | [a, w, p] => embedding_meta a w p none s
  | [a, w, p, .nil] => embedding_meta a w p none s
  | [a, w, p, v] => embedding_meta a w p (some v) s
  | _ => (.error Err.typeError, s)

/-- The recorded `embedding` primitive. -/
def embedding_prim : MetaFn := make_prim Ops.EMBEDDING "embedding" embedding_pmeta

/-!  Helper lemmas shared by several claim theorems. -/

/-- A meta-function error propagates through the recording wrapper
unchanged: no Symbol is built and no state beyond the meta function's
own mutations is touched. -/
theorem wrapper_propagates_error (meta : MetaFn) (id : Ops) (nm : String)
    (args : List PValue) (kwargs : List (String × PValue)) (s s1 : RState) (e : Err)
    (h : meta args kwargs s = (.error e, s1)) :
    eval_meta_and_record_symbol_fn meta id nm args kwargs s = (.error e, s1) := by
  simp [eval_meta_and_record_symbol_fn, h]

/-- The elementwise binary meta function never touches the symbol list:
every branch returns either the incoming state or the incoming state
with only the name counter advanced. -/
theorem elementwise_binary_meta_preserves_symbols (nm : String)
    (k : ELEMENTWISE_PRIM_TYPE_PROMOTION_KIND)
    (hnd : Option (NumVal → NumVal → NumVal)) (a b : PValue) (s : RState) :
    ((_elementwise_binary_meta nm k hnd a b s).2).trace.symbols = s.trace.symbols := by
  unfold _elementwise_binary_meta
  repeat' split
  all_goals simp_all [make_proxy_name, bumpName, freshName]

/-- C1 (amended): when the meta function of a primitive call fails, the
recording wrapper propagates the error and never builds or appends a
Symbol; and the elementwise binary meta function (the validation code
the claim cites) never modifies the symbol list on any path — failure
included — although it may advance the trace's name counter before a
failing check. -/
theorem failed_validation_aborts_before_symbol_mutation :
    (∀ (meta : MetaFn) (id : Ops) (nm : String) (args : List PValue)
        (kwargs : List (String × PValue)) (s s1 : RState) (e : Err),
        meta args kwargs s = (.error e, s1) →
        eval_meta_and_record_symbol_fn meta id nm args kwargs s = (.error e, s1)) ∧
    (∀ (nm : String) (k : ELEMENTWISE_PRIM_TYPE_PROMOTION_KIND)
        (hnd : Option (NumVal → NumVal → NumVal)) (a b : PValue) (s : RState),
        ((_elementwise_binary_meta nm k hnd a b s).2).trace.symbols = s.trace.symbols) :=
  ⟨wrapper_propagates_error, elementwise_binary_meta_preserves_symbols⟩

/-- Witness for the amended C1: a concrete failing `add` call (wrong
argument count) propagates its error through the wrapper with the state
untouched, and a concrete binary-meta invocation preserves the symbol
list. -/
theorem failed_validation_aborts_before_symbol_mutation_witness :
    eval_meta_and_record_symbol_fn add_pmeta Ops.ADD "add" [] [] ⟨⟨0, []⟩, 0⟩ =
      (.error Err.typeError, ⟨⟨0, []⟩, 0⟩) :=
  failed_validation_aborts_before_symbol_mutation.1 add_pmeta Ops.ADD "add" [] []
    ⟨⟨0, []⟩, 0⟩ ⟨⟨0, []⟩, 0⟩ Err.typeError rfl

/-- C1 counterexample: an `add` call on two same-dtype tensors of
shapes [2] and [3] fails its shape validation, yet the trace after the
failed call differs from the trace before it — the name counter was
advanced by `make_proxy_name` before the failing shape check.  The
claim that the trace (including its name counter) is exactly as it was
before the call is therefore false. -/
theorem failed_validation_name_counter_counterexample :
    add_prim [PValue.tensor ⟨"a", [2], "cpu", .float32⟩,
              PValue.tensor ⟨"b", [3], "cpu", .float32⟩] [] ⟨⟨0, []⟩, 0⟩ =
      (.error Err.shapeError, ⟨⟨1, []⟩, 0⟩) ∧
    (⟨⟨1, []⟩, 0⟩ : RState).trace ≠ (⟨⟨0, []⟩, 0⟩ : RState).trace := by
  refine ⟨rfl, fun h => absurd (congrArg Trace.nameCtr h) (by decide)⟩

/-- C2: when the meta function of a primitive call succeeds, the
recording wrapper appends exactly one Symbol to the active trace; the
Symbol's outputs are the meta function's return value normalized to a
tuple (a single result wrapped into a one-element sequence), its args
are the call's positional arguments with each sequence normalized to a
tuple, and the wrapper returns the meta function's result unchanged. -/
theorem successful_call_records_one_symbol
    (meta : MetaFn) (id : Ops) (nm : String) (args : List PValue)
    (kwargs : List (String × PValue)) (s s1 : RState) (result : PValue)
    (h : meta args kwargs s = (.ok result, s1)) :
    ∃ sym : Symbol,
      eval_meta_and_record_symbol_fn meta id nm args kwargs s =
        (.ok result,
          { trace := { nameCtr := s1.trace.nameCtr,
                       symbols := s1.trace.symbols ++ [sym] },
            heapCtr := s1.heapCtr + 1 }) ∧
      sym.op = id ∧ sym.name = nm ∧
      sym.outputs = normalizeOutputs result ∧
      sym.args = args.map normalizeArg ∧
      sym.kwargs = kwargs := by
  refine ⟨{ uid := s1.heapCtr, op := id, name := nm,
            outputs := normalizeOutputs result,
            args := args.map normalizeArg, kwargs := kwargs },
          ?_, rfl, rfl, rfl, rfl, rfl⟩
  simp [eval_meta_and_record_symbol_fn, h, make_symbol, add_symbol]

/-- Witness for C2: a concrete successful `add` call on two [2]-shaped
float32 tensors records exactly one Symbol with the stated fields. -/
theorem successful_call_records_one_symbol_witness :
    ∃ sym : Symbol,
      eval_meta_and_record_symbol_fn add_pmeta Ops.ADD "add"
        [PValue.tensor ⟨"a", [2], "cpu", .float32⟩,
         PValue.tensor ⟨"a", [2], "cpu", .float32⟩] [] ⟨⟨0, []⟩, 0⟩ =
        (.ok (.tensor ⟨"__0", [2], "cpu", .float32⟩),
          { trace := { nameCtr := 1, symbols := [] ++ [sym] }, heapCtr := 0 + 1 }) ∧
      sym.op = Ops.ADD ∧ sym.name = "add" ∧
      sym.outputs = normalizeOutputs (.tensor ⟨"__0", [2], "cpu", .float32⟩) ∧
      sym.args = [PValue.tensor ⟨"a", [2], "cpu", .float32⟩,
                  PValue.tensor ⟨"a", [2], "cpu", .float32⟩].map normalizeArg ∧
      sym.kwargs = [] :=
  successful_call_records_one_symbol add_pmeta Ops.ADD "add"
    [PValue.tensor ⟨"a", [2], "cpu", .float32⟩,
     PValue.tensor ⟨"a", [2], "cpu", .float32⟩] []
    ⟨⟨0, []⟩, 0⟩ ⟨⟨1, []⟩, 0⟩ (.tensor ⟨"__0", [2], "cpu", .float32⟩) rfl

/-- The state after two recorded `add` calls with structurally identical
arguments (used by the identity-equality claim below). -/
def twoIdenticalAddCalls : RState :=
  (add_prim [.tensor ⟨"a", [2], "cpu", .float32⟩, .tensor ⟨"a", [2], "cpu", .float32⟩] []
    ((add_prim [.tensor ⟨"a", [2], "cpu", .float32⟩, .tensor ⟨"a", [2], "cpu", .float32⟩] []
      ⟨⟨0, []⟩, 0⟩).2)).2

/-- A throwaway Symbol used as the `getD` default below. -/
def symDefault : Symbol := ⟨0, Ops.ADD, "", [], [], []⟩

/-- C3: Symbol equality is by object identity only (`self is other`,
modelled by the allocation uid), and two recorded primitive calls with
structurally identical arguments produce two distinct, non-equal
Symbols in the trace. -/
theorem symbol_equality_is_identity_only :
    (∀ s t : Symbol, Symbol.eq s t = (s.uid == t.uid)) ∧
    twoIdenticalAddCalls.trace.symbols.length = 2 ∧
    (twoIdenticalAddCalls.trace.symbols.getD 0 symDefault).args =
      (twoIdenticalAddCalls.trace.symbols.getD 1 symDefault).args ∧
    Symbol.eq (twoIdenticalAddCalls.trace.symbols.getD 0 symDefault)
      (twoIdenticalAddCalls.trace.symbols.getD 1 symDefault) = false ∧
    twoIdenticalAddCalls.trace.symbols.getD 0 symDefault ≠
      twoIdenticalAddCalls.trace.symbols.getD 1 symDefault := by
  refine ⟨fun s t => rfl, rfl, rfl, rfl, fun h => absurd (congrArg Symbol.uid h) (by decide)⟩

/-- C4: on two tensor proxies of the same dtype, an elementwise binary
meta function succeeds exactly when the shapes agree; on success the
result is a tensor proxy with that shape, the first operand's device and
the promoted dtype, and on a shape mismatch it fails with a shape error
(the name counter having been advanced either way). -/
theorem elementwise_binary_shape_agreement
    (nm : String) (k : ELEMENTWISE_PRIM_TYPE_PROMOTION_KIND)
    (hnd : Option (NumVal → NumVal → NumVal)) (ta tb : TensorProxy) (s : RState)
    (hdt : ta.dtype = tb.dtype) :
    (ta.shape = tb.shape →
      _elementwise_binary_meta nm k hnd (.tensor ta) (.tensor tb) s =
        (.ok (.tensor { name := freshName s, shape := ta.shape, device := ta.device,
                        dtype := dtypeFromTag (_prim_type_promotion (.dt ta.dtype) k) }),
         bumpName s)) ∧
    (ta.shape ≠ tb.shape →
      _elementwise_binary_meta nm k hnd (.tensor ta) (.tensor tb) s =
        (.error Err.shapeError, bumpName s)) := by
  constructor
  · intro hsh
    simp [_elementwise_binary_meta, isTensorOrNumber, check_same_dtype, hdt, same_shape,
          beq_iff_eq, hsh, make_proxy_name, TensorProxy.withDtype]
  · intro hsh
    simp [_elementwise_binary_meta, isTensorOrNumber, check_same_dtype, hdt, same_shape,
          beq_iff_eq, hsh, make_proxy_name]

/-- Witness for C4: `add` on two [2,3]-shaped float32 tensors yields a
[2,3]-shaped float32 tensor proxy; on shapes [2,3] and [3,2] it fails
with a shape error. -/
theorem elementwise_binary_shape_agreement_witness :
    _elementwise_binary_meta "add" .DEFAULT (some add_number_handler)
        (.tensor ⟨"a", [2, 3], "cpu", .float32⟩) (.tensor ⟨"b", [2, 3], "cpu", .float32⟩)
        ⟨⟨0, []⟩, 0⟩ =
      (.ok (.tensor ⟨"__0", [2, 3], "cpu", .float32⟩), ⟨⟨1, []⟩, 0⟩) ∧
    _elementwise_binary_meta "add" .DEFAULT (some add_number_handler)
        (.tensor ⟨"a", [2, 3], "cpu", .float32⟩) (.tensor ⟨"c", [3, 2], "cpu", .float32⟩)
        ⟨⟨0, []⟩, 0⟩ =
      (.error Err.shapeError, ⟨⟨1, []⟩, 0⟩) :=
  ⟨(elementwise_binary_shape_agreement "add" .DEFAULT (some add_number_handler)
      ⟨"a", [2, 3], "cpu", .float32⟩ ⟨"b", [2, 3], "cpu", .float32⟩ ⟨⟨0, []⟩, 0⟩ rfl).1 rfl,
   (elementwise_binary_shape_agreement "add" .DEFAULT (some add_number_handler)
      ⟨"a", [2, 3], "cpu", .float32⟩ ⟨"c", [3, 2], "cpu", .float32⟩ ⟨⟨0, []⟩, 0⟩ rfl).2
     (by decide)⟩

/-- The boolean-result predicate: a tensor proxy result has dtype bool8,
a number proxy result has Python type `bool`. -/
def resultElemIsBool : PValue → Prop
  | .tensor t => t.dtype = Dtype.bool8
  | .num n => ntypeOf n.value = NumberType.tBool
  | _ => False

/-- Every successful ALWAYS_BOOL elementwise binary call returns a
boolean-typed result. -/
theorem binary_always_bool (nm : String) (hnd : Option (NumVal → NumVal → NumVal))
    (a b : PValue) (s s1 : RState) (r : PValue)
    (h : _elementwise_binary_meta nm .ALWAYS_BOOL hnd a b s = (.ok r, s1)) :
    resultElemIsBool r := by
  unfold _elementwise_binary_meta at h
  repeat' split at h
  all_goals (try simp only [Prod.mk.injEq, Except.ok.injEq] at h)
  all_goals (try obtain ⟨hr, hs⟩ := h)
  all_goals (try subst hr)
  all_goals simp_all [resultElemIsBool, TensorProxy.withDtype, dtypeFromTag,
    _prim_type_promotion, castTag, castNum, ntypeOf, make_proxy_name]

/-- Every successful ALWAYS_BOOL elementwise unary call returns a
boolean-typed result. -/
theorem unary_always_bool (nm : String) (hnd : Option (NumVal → NumVal))
    (a : PValue) (s s1 : RState) (r : PValue)
    (h : _elementwise_unary_meta nm .ALWAYS_BOOL hnd a s = (.ok r, s1)) :
    resultElemIsBool r := by
  unfold _elementwise_unary_meta at h
  repeat' split at h
  all_goals (try simp only [Prod.mk.injEq, Except.ok.injEq] at h)
  all_goals (try obtain ⟨hr, hs⟩ := h)
  all_goals (try subst hr)
  all_goals simp_all [resultElemIsBool, TensorProxy.withDtype, dtypeFromTag,
    _prim_type_promotion, castTag, castNum, ntypeOf, make_proxy_name]

/-- C5: `eq`, `lt` and `isfinite` are registered with the ALWAYS_BOOL
promotion kind, so every successful call returns a boolean-typed
result — a bool8 tensor proxy for tensor results and a Python-bool
number proxy for number results — regardless of the input element
type. -/
theorem always_bool_prims_return_bool :
    (∀ (a b : PValue) (s s1 : RState) (r : PValue),
      eq_meta a b s = (.ok r, s1) → resultElemIsBool r) ∧
    (∀ (a b : PValue) (s s1 : RState) (r : PValue),
      lt_meta a b s = (.ok r, s1) → resultElemIsBool r) ∧
    (∀ (a : PValue) (s s1 : RState) (r : PValue),
      isfinite_meta a s = (.ok r, s1) → resultElemIsBool r) :=
  ⟨fun a b s s1 r h => binary_always_bool "eq" (some eq_number_handler) a b s s1 r h,
   fun a b s s1 r h => binary_always_bool "lt" (some lt_number_handler) a b s s1 r h,
   fun a s s1 r h => unary_always_bool "isfinite" (some isfinite_number_handler) a s s1 r h⟩

/-- Witness for C5: `eq` on two int64 tensors yields a bool8 tensor
proxy; `lt` on two plain ints yields a Python-bool number proxy;
`isfinite` on a float32 tensor yields a bool8 tensor proxy. -/
theorem always_bool_prims_return_bool_witness :
    resultElemIsBool (.tensor ⟨"__0", [2], "cpu", Dtype.bool8⟩) ∧
    resultElemIsBool (.num ⟨some "__0", .vBool true⟩) ∧
    resultElemIsBool (.tensor ⟨"__0", [4], "cpu", Dtype.bool8⟩) :=
  ⟨always_bool_prims_return_bool.1 (.tensor ⟨"a", [2], "cpu", .int64⟩)
      (.tensor ⟨"b", [2], "cpu", .int64⟩) ⟨⟨0, []⟩, 0⟩ ⟨⟨1, []⟩, 0⟩
      (.tensor ⟨"__0", [2], "cpu", Dtype.bool8⟩) rfl,
   always_bool_prims_return_bool.2.1 (.num ⟨none, .vInt 1⟩) (.num ⟨none, .vInt 2⟩)
      ⟨⟨0, []⟩, 0⟩ ⟨⟨1, []⟩, 0⟩ (.num ⟨some "__0", .vBool true⟩) rfl,
   always_bool_prims_return_bool.2.2 (.tensor ⟨"a", [4], "cpu", .float32⟩)
      ⟨⟨0, []⟩, 0⟩ ⟨⟨1, []⟩, 0⟩ (.tensor ⟨"__0", [4], "cpu", Dtype.bool8⟩) rfl⟩

/-- C9: `matmul` on an operand of rank below 2, and `embedding` with a
non-None `max_norm`, each abort with the unsupported-feature error
before any state mutation: the recorded-primitive call returns the
error with the state — trace, name counter and symbol list — exactly as
it was, so no Symbol is recorded. -/
theorem matmul_embedding_unsupported :
    (∀ (ta tb : TensorProxy) (s : RState), ta.ndim < 2 ∨ tb.ndim < 2 →
      matmul_prim [.tensor ta, .tensor tb] [] s = (.error Err.notImplemented, s)) ∧
    (∀ (a w p v : PValue) (s : RState), v ≠ PValue.nil →
      embedding_prim [a, w, p, v] [] s = (.error Err.notImplemented, s)) := by
  constructor
  · intro ta tb s h
    have hm : matmul_pmeta [.tensor ta, .tensor tb] [] s = (.error Err.notImplemented, s) := by
      simp [matmul_pmeta, matmul_meta, h]
    exact wrapper_propagates_error matmul_pmeta Ops.MATMUL "matmul" _ _ _ _ _ hm
  · intro a w p v s hv
    have hm : embedding_pmeta [a, w, p, v] [] s = (.error Err.notImplemented, s) := by
      cases v <;> simp_all [embedding_pmeta, embedding_meta]
    exact wrapper_propagates_error embedding_pmeta Ops.EMBEDDING "embedding" _ _ _ _ _ hm

/-- Witness for C9: a concrete `matmul` call on two rank-1 tensors and a
concrete `embedding` call with `max_norm = 1.0` both fail with the
unsupported-feature error and leave the state untouched. -/
theorem matmul_embedding_unsupported_witness :
    matmul_prim [.tensor ⟨"a", [3], "cpu", .float32⟩,
                 .tensor ⟨"b", [3], "cpu", .float32⟩] [] ⟨⟨0, []⟩, 0⟩ =
      (.error Err.notImplemented, ⟨⟨0, []⟩, 0⟩) ∧
    embedding_prim [.tensor ⟨"i", [5], "cpu", .int64⟩,
                    .tensor ⟨"w", [10, 4], "cpu", .float32⟩,
                    .num ⟨none, .vInt (-1)⟩, .num ⟨none, .vFloat 1⟩] [] ⟨⟨0, []⟩, 0⟩ =
      (.error Err.notImplemented, ⟨⟨0, []⟩, 0⟩) :=
  ⟨matmul_embedding_unsupported.1 ⟨"a", [3], "cpu", .float32⟩ ⟨"b", [3], "cpu", .float32⟩
      ⟨⟨0, []⟩, 0⟩ (Or.inl (by decide)),
   matmul_embedding_unsupported.2 (.tensor ⟨"i", [5], "cpu", .int64⟩)
      (.tensor ⟨"w", [10, 4], "cpu", .float32⟩) (.num ⟨none, .vInt (-1)⟩)
      (.num ⟨none, .vFloat 1⟩) ⟨⟨0, []⟩, 0⟩ (fun h => PValue.noConfusion h)⟩

/-- C10: `rsqrt` is registered with the ALWAYS_BOOL promotion kind, so
every accepted input yields a boolean-typed result; in particular
`rsqrt` of a float32 tensor yields a tensor proxy with dtype bool8
rather than float32. -/
theorem rsqrt_always_bool :
    (∀ (a : PValue) (s s1 : RState) (r : PValue),
      rsqrt_meta a s = (.ok r, s1) → resultElemIsBool r) ∧
    rsqrt_meta (.tensor ⟨"a", [2, 2], "cpu", .float32⟩) ⟨⟨0, []⟩, 0⟩ =
      (.ok (.tensor ⟨"__0", [2, 2], "cpu", Dtype.bool8⟩), ⟨⟨1, []⟩, 0⟩) :=
  ⟨fun a s s1 r h => unary_always_bool "rsqrt" (some _rsqrt_number) a s s1 r h, rfl⟩

/-- Witness for C10: the general part applied to a concrete float32
tensor input. -/
theorem rsqrt_always_bool_witness :
    resultElemIsBool (.tensor ⟨"__0", [3], "cpu", Dtype.bool8⟩) :=
  rsqrt_always_bool.1 (.tensor ⟨"a", [3], "cpu", .float32⟩) ⟨⟨0, []⟩, 0⟩ ⟨⟨1, []⟩, 0⟩
    (.tensor ⟨"__0", [3], "cpu", Dtype.bool8⟩) rfl

/-- C6: `reshape` on a tensor proxy succeeds exactly when the target
shape's element-count product equals the tensor's element count (shape
validity holding by construction for natural-number shapes); on success
the result keeps the tensor's dtype and device with the new shape, and
the round trip through the original shape restores a proxy with the
original shape, dtype and device. -/
theorem reshape_numel_iff_and_roundtrip (t : TensorProxy) (shape : List Nat) (s : RState) :
    (shape.foldl (· * ·) 1 = t.numel →
      reshape_meta (.tensor t) shape s =
        (.ok (.tensor { name := freshName s, shape := shape,
                        device := t.device, dtype := t.dtype }), bumpName s)) ∧
    (shape.foldl (· * ·) 1 ≠ t.numel →
      reshape_meta (.tensor t) shape s = (.error Err.shapeError, s)) ∧
    (shape.foldl (· * ·) 1 = t.numel →
      reshape_meta (.tensor { name := freshName s, shape := shape,
                              device := t.device, dtype := t.dtype }) t.shape (bumpName s) =
        (.ok (.tensor { name := freshName (bumpName s), shape := t.shape,
                        device := t.device, dtype := t.dtype }), bumpName (bumpName s))) := by
  refine ⟨fun h => ?_, fun h => ?_, fun h => ?_⟩
  · simp [reshape_meta, h, make_proxy_name, TensorProxy.withShape]
  · simp [reshape_meta, h, make_proxy_name]
  · have h2 : t.shape.foldl (· * ·) 1 = shape.foldl (· * ·) 1 := h.symm
    simp [reshape_meta, TensorProxy.numel, h2, make_proxy_name, TensorProxy.withShape]

/-- Witness for C6: reshaping a [2,3] float32 tensor to [3,2] succeeds,
and reshaping the result back to [2,3] restores the original shape,
dtype and device. -/
theorem reshape_numel_iff_and_roundtrip_witness :
    reshape_meta (.tensor ⟨"a", [2, 3], "cpu", .float32⟩) [3, 2] ⟨⟨0, []⟩, 0⟩ =
      (.ok (.tensor ⟨"__0", [3, 2], "cpu", .float32⟩), ⟨⟨1, []⟩, 0⟩) ∧
    reshape_meta (.tensor ⟨"__0", [3, 2], "cpu", .float32⟩) [2, 3] ⟨⟨1, []⟩, 0⟩ =
      (.ok (.tensor ⟨"__1", [2, 3], "cpu", .float32⟩), ⟨⟨2, []⟩, 0⟩) :=
  ⟨(reshape_numel_iff_and_roundtrip ⟨"a", [2, 3], "cpu", .float32⟩ [3, 2] ⟨⟨0, []⟩, 0⟩).1 rfl,
   (reshape_numel_iff_and_roundtrip ⟨"a", [2, 3], "cpu", .float32⟩ [3, 2] ⟨⟨0, []⟩, 0⟩).2.2 rfl⟩

/-- The boolean form of the per-dimension slice bounds conditions. -/
def dimsOk (l : List (Int × Int × Nat × Int)) : Bool :=
  l.all fun q =>
    decide (0 ≤ q.1 ∧ q.1 ≤ (q.2.2.1 : Int) ∧ q.1 ≤ q.2.1 ∧ q.2.1 ≤ (q.2.2.1 : Int) ∧ 1 ≤ q.2.2.2)

/-- The per-dimension output lengths of a slice:
`floor((stop - start) / stride)` for every zipped dimension. -/
def sliceShape (l : List (Int × Int × Nat × Int)) : List Nat :=
  l.map fun q => ((q.2.1 - q.1) / q.2.2.2).toNat

/-- When every dimension passes its bounds checks, `sliceDims` returns
the per-dimension floor lengths. -/
theorem sliceDims_ok {l : List (Int × Int × Nat × Int)} (h : dimsOk l = true) :
    sliceDims l = .ok (sliceShape l) := by
  induction l with
  | nil => rfl
  | cons q rest ih =>
    obtain ⟨start, stop, len, stride⟩ := q
    simp only [dimsOk, List.all_cons, Bool.and_eq_true, decide_eq_true_eq] at h
    obtain ⟨h1, h2⟩ := h
    simp [sliceDims, h1, ih h2, sliceShape]

/-- When some dimension fails a bounds check, `sliceDims` fails with the
bounds error. -/
theorem sliceDims_err {l : List (Int × Int × Nat × Int)} (h : dimsOk l = false) :
    sliceDims l = .error Err.boundsError := by
  induction l with
  | nil => simp [dimsOk] at h
  | cons q rest ih =>
    obtain ⟨start, stop, len, stride⟩ := q
    by_cases h1 : 0 ≤ start ∧ start ≤ (len : Int) ∧ start ≤ stop ∧ stop ≤ (len : Int) ∧ 1 ≤ stride
    · have h2 : dimsOk rest = false := by
        simpa [dimsOk, List.all_cons, h1] using h
      simp [sliceDims, h1, ih h2]
    · simp [sliceDims, h1]

/-- C8: `slice` defaults its strides to 1 per dimension; with explicit
strides it succeeds exactly when all three index sequences have length
equal to the tensor's rank and every dimension satisfies
`0 ≤ start ≤ shape_i`, `start ≤ stop ≤ shape_i` and `stride ≥ 1`; on
success each result dimension has length
`floor((stop - start) / stride)`, and any violation fails with a bounds
error. -/
theorem slice_bounds_iff (t : TensorProxy) (st en str : List Int) (s : RState) :
    slice_meta (.tensor t) st en none s =
      slice_meta (.tensor t) st en (some (List.replicate t.ndim 1)) s ∧
    ((t.ndim = st.length ∧ st.length = en.length ∧ en.length = str.length) ∧
        dimsOk (zip4 st en t.shape str) = true →
      slice_meta (.tensor t) st en (some str) s =
        (.ok (.tensor { name := freshName s, shape := sliceShape (zip4 st en t.shape str),
                        device := t.device, dtype := t.dtype }), bumpName s)) ∧
    (¬ ((t.ndim = st.length ∧ st.length = en.length ∧ en.length = str.length) ∧
        dimsOk (zip4 st en t.shape str) = true) →
      slice_meta (.tensor t) st en (some str) s = (.error Err.boundsError, s)) := by
  refine ⟨rfl, fun h => ?_, fun h => ?_⟩
  · obtain ⟨hlen, hdims⟩ := h
    simp [slice_meta, hlen, sliceDims_ok hdims, make_proxy_name, TensorProxy.withShape]
  · by_cases hlen : t.ndim = st.length ∧ st.length = en.length ∧ en.length = str.length
    · have hdims : dimsOk (zip4 st en t.shape str) = false :=
        Bool.eq_false_iff.mpr (fun ht => h ⟨hlen, ht⟩)
      simp [slice_meta, hlen, sliceDims_err hdims]
    · simp [slice_meta, hlen]

/-- Witness for C8: `slice(a, start=(0,), end=(4,), strides=(2,))` on a
tensor of shape (4,) yields shape (2,); using the default strides
yields shape (4,); start index 5 on the same tensor fails with a bounds
error. -/
theorem slice_bounds_iff_witness :
    slice_meta (.tensor ⟨"a", [4], "cpu", .float32⟩) [0] [4] (some [2]) ⟨⟨0, []⟩, 0⟩ =
      (.ok (.tensor ⟨"__0", [2], "cpu", .float32⟩), ⟨⟨1, []⟩, 0⟩) ∧
    slice_meta (.tensor ⟨"a", [4], "cpu", .float32⟩) [5] [4] (some [2]) ⟨⟨0, []⟩, 0⟩ =
      (.error Err.boundsError, ⟨⟨0, []⟩, 0⟩) :=
  ⟨(slice_bounds_iff ⟨"a", [4], "cpu", .float32⟩ [0] [4] [2] ⟨⟨0, []⟩, 0⟩).2.1
      (by constructor <;> decide),
   (slice_bounds_iff ⟨"a", [4], "cpu", .float32⟩ [5] [4] [2] ⟨⟨0, []⟩, 0⟩).2.2
      (by decide)⟩

/-- Index of the first occurrence of `i` in a list of naturals (0 when
absent; only used under a membership hypothesis). -/
def idxOfN (i : Nat) : List Nat → Nat
  | [] => 0
  | x :: xs => if x = i then 0 else idxOfN i xs + 1

/-- The first-occurrence index of a member is within bounds. -/
theorem idxOfN_lt {i : Nat} {p : List Nat} (h : i ∈ p) : idxOfN i p < p.length := by
  induction p with
  | nil => simp at h
  | cons x xs ih =>
    by_cases hx : x = i
    · simp [idxOfN, hx]
    · have hm : i ∈ xs := by
        rcases List.mem_cons.mp h with h1 | h1
        · exact absurd h1.symm hx
        · exact h1
      simpa [idxOfN, hx, Nat.succ_lt_succ_iff] using ih hm

/-- Reading a list at the first-occurrence index of a member returns
that member. -/
theorem getD_idxOfN {i : Nat} {p : List Nat} (h : i ∈ p) : p.getD (idxOfN i p) 0 = i := by
  induction p with
  | nil => simp at h
  | cons x xs ih =>
    by_cases hx : x = i
    · simp [idxOfN, hx]
    · have hm : i ∈ xs := by
        rcases List.mem_cons.mp h with h1 | h1
        · exact absurd h1.symm hx
        · exact h1
      simpa [idxOfN, hx] using ih hm

/-- The inverse of a permutation: position `i` holds the index at which
`p` holds `i`. -/
def invPerm (p : List Nat) : List Nat :=
  (List.range p.length).map fun i => idxOfN i p

/-- The inverse of a valid permutation of `0..n-1` is itself a valid
permutation of `0..n-1`. -/
theorem invPerm_perm {p : List Nat} {n : Nat} (hp : p.Perm (List.range n)) :
    (invPerm p).Perm (List.range n) := by
  have hlen : p.length = n := by simpa using hp.length_eq
  have hnodup : (invPerm p).Nodup := by
    unfold invPerm
    refine List.Nodup.map_on ?_ (List.nodup_range _)
    intro x hx y hy hxy
    have hxp : x ∈ p := hp.mem_iff.mpr (by simpa [hlen] using hx)
    have hyp : y ∈ p := hp.mem_iff.mpr (by simpa [hlen] using hy)
    calc x = p.getD (idxOfN x p) 0 := (getD_idxOfN hxp).symm
      _ = p.getD (idxOfN y p) 0 := by rw [hxy]
      _ = y := getD_idxOfN hyp
  have hsub : invPerm p ⊆ List.range n := by
    intro z hz
    unfold invPerm at hz
    obtain ⟨i, hi, rfl⟩ := List.mem_map.mp hz
    have hip : i ∈ p := hp.mem_iff.mpr (by simpa [hlen] using hi)
    exact List.mem_range.mpr (hlen ▸ idxOfN_lt hip)
  exact (List.subperm_of_subset hnodup hsub).perm_of_length_le (by simp [invPerm, hlen])

/-- Applying a valid permutation to a shape and then its inverse
restores the shape. -/
theorem permShape_invPerm {p sh : List Nat} (hp : p.Perm (List.range sh.length)) :
    permShape (invPerm p) (permShape p sh) = sh := by
  have hlen : p.length = sh.length := by simpa using hp.length_eq
  apply List.ext_getElem
  · simp [permShape, invPerm, hlen]
  · intro i h1 h2
    have hi : i < p.length := by simpa [permShape, invPerm] using h1
    have him : i ∈ p := hp.mem_iff.mpr (List.mem_range.mpr (hlen ▸ hi))
    have hj : idxOfN i p < p.length := idxOfN_lt him
    have hpj : p.getD (idxOfN i p) 0 = i := getD_idxOfN him
    simp only [permShape, invPerm, List.getElem_map, List.getElem_range]
    have hlen2 : (p.map fun dim => sh.getD dim 0).length = p.length := by simp
    rw [List.getD_eq_getElem _ _ (by rw [hlen2]; exact hj), List.getElem_map]
    rw [List.getD_eq_getElem _ _ hj] at hpj
    rw [hpj, List.getD_eq_getElem _ _ h2]

/-- C7: on a valid permutation of the tensor's rank, `transpose` yields
a proxy whose shape is the tensor's shape reordered by the permutation,
and transposing the result by the inverse permutation restores a proxy
with the original shape (and dtype and device). -/
theorem transpose_permutation_roundtrip (t : TensorProxy) (p : List Nat) (s : RState)
    (hlen : p.length = t.ndim) (hperm : check_valid_permutation t.ndim p = true) :
    transpose_meta (.tensor t) p s =
      (.ok (.tensor { name := freshName s, shape := permShape p t.shape,
                      device := t.device, dtype := t.dtype }), bumpName s) ∧
    transpose_meta (.tensor { name := freshName s, shape := permShape p t.shape,
                              device := t.device, dtype := t.dtype })
        (invPerm p) (bumpName s) =
      (.ok (.tensor { name := freshName (bumpName s), shape := t.shape,
                      device := t.device, dtype := t.dtype }), bumpName (bumpName s)) := by
  have hp : p.Perm (List.range t.ndim) := of_decide_eq_true hperm
  have hp' : p.Perm (List.range t.shape.length) := hp
  constructor
  · simp [transpose_meta, hlen, hperm, make_proxy_name, TensorProxy.withShape]
  · have e1 : ({ name := freshName s, shape := permShape p t.shape,
                 device := t.device, dtype := t.dtype } : TensorProxy).ndim = t.ndim := by
      simp [TensorProxy.ndim, permShape, hlen]
    have e2 : (invPerm p).length = t.ndim := by simp [invPerm, hlen]
    have hcvp2 : check_valid_permutation t.ndim (invPerm p) = true :=
      decide_eq_true (invPerm_perm hp)
    have hshape : permShape (invPerm p) (permShape p t.shape) = t.shape :=
      permShape_invPerm hp'
    simp [transpose_meta, e1, e2, hcvp2, hshape, make_proxy_name, TensorProxy.withShape]

/-- Witness for C7: transposing a [2,3,4] tensor by (2,0,1) yields shape
[4,2,3], and transposing that by the inverse permutation (1,2,0)
restores shape [2,3,4]. -/
theorem transpose_permutation_roundtrip_witness :
    transpose_meta (.tensor ⟨"a", [2, 3, 4], "cpu", .float32⟩) [2, 0, 1] ⟨⟨0, []⟩, 0⟩ =
      (.ok (.tensor ⟨"__0", [4, 2, 3], "cpu", .float32⟩), ⟨⟨1, []⟩, 0⟩) ∧
    transpose_meta (.tensor ⟨"__0", [4, 2, 3], "cpu", .float32⟩) [1, 2, 0] ⟨⟨1, []⟩, 0⟩ =
      (.ok (.tensor ⟨"__1", [2, 3, 4], "cpu", .float32⟩), ⟨⟨2, []⟩, 0⟩) :=
  ⟨(transpose_permutation_roundtrip ⟨"a", [2, 3, 4], "cpu", .float32⟩ [2, 0, 1]
      ⟨⟨0, []⟩, 0⟩ rfl (by decide)).1,
   (transpose_permutation_roundtrip ⟨"a", [2, 3, 4], "cpu", .float32⟩ [2, 0, 1]
      ⟨⟨0, []⟩, 0⟩ rfl (by decide)).2⟩

end ThunderPrims
